import Mathlib

/-!
Shallow embedding of the live workflow-progress tracker of JarvisMD
(src/src/components/WorkflowProgress.jsx): the progress state store, its
frame-merge engine, the step-status update, the append-only message and
activity logs, and the WebSocket connection lifecycle bookkeeping.

JavaScript optional values are modelled as Option; a JSON key that is
absent (or null/undefined) is none.  JavaScript truthiness on strings
(the empty string is falsy) is modelled explicitly, because the source
guards several branches with bare truthiness tests.
-/

namespace JarvisMD

/-- JavaScript truthiness of an optional string: false when the key is
absent and when the string is empty. -/
def truthyS : Option String → Bool
  | none => false
  | some s => s ≠ ""

/-- JavaScript `a || b` on two optional strings: the left value when it
is truthy, otherwise the right value. -/
def jsOr (a b : Option String) : Option String :=
  if truthyS a then a else b

/-- JavaScript `a || b` where the right operand is a (truthy) string
default, as in `x || 'running'`. -/
def jsOrD (a : Option String) (b : String) : String :=
  if truthyS a then a.getD "" else b

/-- A message object carried in a frame and stored in the message log
(content, optional agent, optional timestamp). -/
structure Message where
  content : Option String
  agent : Option String
  timestamp : Option String
  deriving DecidableEq, Repr

/-- The `agent_activity` fragment of a progress_update patch. -/
structure ActivityFragment where
  agent : Option String
  action : Option String
  status : Option String
  details : Option String
  deriving DecidableEq, Repr

/-- An AgentActivity record as synthesized by the component and appended
to the activity log. -/
structure AgentActivity where
  id : Nat
  timestamp : String
  agent : Option String
  action : String
  status : String
  details : Option String
  deriving DecidableEq, Repr

/-- One entry of the static six-step catalog, with its derived status
stored alongside. -/
structure Step where
  id : String
  name : String
  status : String
  agent : String
  deriving DecidableEq, Repr

/-- The patch object carried in the `data` field of an inbound frame;
the recognized fields of the event schema, each optional. -/
structure Data where
  status : Option String := none
  current_step : Option String := none
  completed_steps : Option (List String) := none
  progress_percentage : Option Nat := none
  current_agent : Option String := none
  final_result : Option String := none
  message : Option Message := none
  agent_activity : Option ActivityFragment := none
  deriving DecidableEq, Repr

/-- The workflowState held by the component (the progress state store). -/
structure WorkflowState where
  status : String
  current_step : Option String
  completed_steps : List String
  progress_percentage : Nat
  current_agent : Option String
  final_result : Option String
  messages : List Message
  agent_activities : List AgentActivity
  workflow_steps : List Step
  deriving DecidableEq, Repr

/-- The static six-step catalog with which the store is initialised. -/
def initialSteps : List Step :=
  [ ⟨"triage", "Case Triage", "pending", "CaseTriageAgent"⟩,
    ⟨"doctor_matching", "Doctor Matching", "pending", "DoctorMatchingAgent"⟩,
    ⟨"appointment_coordination", "Appointment Coordination", "pending", "AppointmentCoordinatorAgent"⟩,
    ⟨"doctor_simulation", "Doctor Response Simulation", "pending", "DoctorResponseSimulatorAgent"⟩,
    ⟨"calendar_integration", "Calendar Integration", "pending", "CalendarIntegrationAgent"⟩,
    ⟨"health_recommendations", "Health Recommendations", "pending", "HealthAdvisorAgent"⟩ ]

/-- The initial store state (the useState initialiser): status idle,
nothing current, nothing completed, empty logs, six pending steps. -/
def initialState : WorkflowState :=
  { status := "idle"
    current_step := none
    completed_steps := []
    progress_percentage := 0
    current_agent := none
    final_result := none
    messages := []
    agent_activities := []
    workflow_steps := initialSteps }

/-- The wall clock observed while handling one frame: Date.now() in
milliseconds and new Date().toLocaleTimeString(). -/
structure Timestamp where
  ms : Nat
  display : String
  deriving DecidableEq, Repr

/-- Step 1 of the merge: the JavaScript spread of the patch onto the
previous state — a field present in the patch overwrites, an absent
field retains its prior value. -/
def mergeTop (prev : WorkflowState) (dd : Data) : WorkflowState :=
  { prev with
    status := dd.status.getD prev.status
    current_step := match dd.current_step with
      | some v => some v
      | none => prev.current_step
    completed_steps := dd.completed_steps.getD prev.completed_steps
    progress_percentage := dd.progress_percentage.getD prev.progress_percentage
    current_agent := match dd.current_agent with
      | some v => some v
      | none => prev.current_agent
    final_result := match dd.final_result with
      | some v => some v
      | none => prev.final_result }

/-- The guard of the activity-synthesis branch:
data.data.current_agent || data.data.agent_activity. -/
def activityTriggered (dd : Data) : Bool :=
  truthyS dd.current_agent || dd.agent_activity.isSome

/-- The AgentActivity record synthesized from one qualifying frame. -/
def mkActivity (now : Timestamp) (dd : Data) : AgentActivity :=
  { id := now.ms
    timestamp := now.display
    agent := jsOr dd.current_agent (dd.agent_activity.bind (·.agent))
    action := jsOrD (dd.agent_activity.bind (·.action))
      (jsOrD (dd.message.bind (·.content)) "Processing...")
    status := jsOrD (dd.agent_activity.bind (·.status)) "running"
    details := jsOr (dd.agent_activity.bind (·.details)) none }

/-- The per-step update performed when the frame carries a truthy
current_step: the matching step becomes running, a step listed in the
PREVIOUS state's completed_steps becomes completed, and any other step
is returned unchanged. -/
def updateStep (cs : String) (completedPrev : List String) (step : Step) : Step :=
  if step.id = cs then { step with status := "running" }
  else if completedPrev.contains step.id then { step with status := "completed" }
  else step

/-- The progress_update handler: shallow merge, optional message append
(timestamp overwritten with the local receive time), optional activity
synthesis (which also assigns current_agent from the raw patch field),
then the conditional step-status update over the previous state's
steps and completed_steps. -/
def handleProgressUpdate (now : Timestamp) (prev : WorkflowState) (dd : Data) :
    WorkflowState :=
  let base := mergeTop prev dd
  let withMsg :=
    match dd.message with
    | some m =>
        { base with
          messages := prev.messages ++ [{ m with timestamp := some now.display }] }
    | none => base
  let withAct :=
    if activityTriggered dd then
      { withMsg with
        agent_activities := prev.agent_activities ++ [mkActivity now dd]
        current_agent := dd.current_agent }
    else withMsg
  if truthyS dd.current_step then
    { withAct with
      workflow_steps :=
        prev.workflow_steps.map
          (updateStep (dd.current_step.getD "") prev.completed_steps) }
  else withAct

/-- An inbound frame as seen by the onmessage handler: either a payload
JSON.parse rejects, or a parsed envelope whose type key may be absent. -/
inductive RawFrame where
  | malformed
  | envelope (ty : Option String) (dd : Data)
  deriving DecidableEq, Repr

/-- The onmessage handler.  Returns the new store state together with
whether a decode diagnostic was logged (console.error in the catch).
A malformed payload is dropped and logged; a progress_update or
session_update frame is merged; any other envelope is ignored. -/
def onmessage (now : Timestamp) (st : WorkflowState) (raw : RawFrame) :
    WorkflowState × Bool :=
  match raw with
  | .malformed => (st, true)
  | .envelope ty dd =>
      if ty = some "progress_update" then (handleProgressUpdate now st dd, false)
      else if ty = some "session_update" then (mergeTop st dd, false)
      else (st, false)

/-- Apply a sequence of timestamped inbound frames in arrival order. -/
def applySeq (st : WorkflowState) (frames : List (Timestamp × RawFrame)) :
    WorkflowState :=
  frames.foldl (fun s p => (onmessage p.1 s p.2).1) st

/-- The connection-manager bookkeeping: whether a WebSocket object is
held, the isConnected flag, the connectionError reason, and the list of
frames sent so far on the channel. -/
structure ConnState where
  wsExists : Bool
  isConnected : Bool
  connectionError : Option String
  sent : List String
  deriving DecidableEq, Repr

/-- Connection state before the effect runs. -/
def connInitial : ConnState :=
  { wsExists := false, isConnected := false, connectionError := none, sent := [] }

/-- The guarded connect effect: a no-op when the session id is absent
(or empty, which JavaScript treats as falsy) or the view is not
visible; otherwise a WebSocket is constructed. -/
def openConn (sessionId : Option String) (isVisible : Bool) (c : ConnState) :
    ConnState :=
  if ¬ truthyS sessionId || ¬ isVisible then c
  else { c with wsExists := true }

/-- The onopen handler: mark connected, clear the error, and send one
get_status frame. -/
def onopen (c : ConnState) : ConnState :=
  { c with
    isConnected := true
    connectionError := none
    sent := c.sent ++ ["get_status"] }

/-- The onclose handler: only setIsConnected(false). -/
def onclose (c : ConnState) : ConnState :=
  { c with isConnected := false }

/-- The onerror handler: set the connectivity reason and mark
disconnected. -/
def onerror (c : ConnState) : ConnState :=
  { c with connectionError := some "Connection failed", isConnected := false }

/-- The useEffect cleanup run on hide/unmount: close the WebSocket if
one is held. -/
def cleanupConn (c : ConnState) : ConnState :=
  if c.wsExists then { c with wsExists := false } else c

/-- The store state after a session_update frame. -/
def applySession (now : Timestamp) (st : WorkflowState) (dd : Data) : WorkflowState :=
  (onmessage now st (.envelope (some "session_update") dd)).1

/-- The message (if any) that handling one inbound frame appends to the
message log: only a progress_update with a message key appends, with
the timestamp replaced by the local receive time. -/
def messageOf (p : Timestamp × RawFrame) : Option Message :=
  match p.2 with
  | .malformed => none
  | .envelope ty dd =>
      if ty = some "progress_update" then
        dd.message.map (fun m => { m with timestamp := some p.1.display })
      else none

/-- The AgentActivity record (if any) that handling one inbound frame
appends to the activity log: only a progress_update whose patch triggers
the activity branch appends one. -/
def activityOf (p : Timestamp × RawFrame) : Option AgentActivity :=
  match p.2 with
  | .malformed => none
  | .envelope ty dd =>
      if ty = some "progress_update" ∧ activityTriggered dd then
        some (mkActivity p.1 dd)
      else none

/-! Concrete test vectors used by the scenario theorems and the
counterexamples. -/

/-- A receive time used in concrete scenarios. -/
def ts1 : Timestamp := ⟨1, "10:00:01"⟩

/-- A later receive time used in concrete scenarios. -/
def ts2 : Timestamp := ⟨2, "10:00:02"⟩

/-- The first frame of the spec scenario: current_step triage. -/
def frameTriage : RawFrame :=
  .envelope (some "progress_update") { current_step := some "triage" }

/-- The second frame of the spec scenario: triage completed,
current_step doctor_matching. -/
def frameDoctor : RawFrame :=
  .envelope (some "progress_update")
    { current_step := some "doctor_matching", completed_steps := some ["triage"] }

/-- The store after the spec scenario's two frames hit a fresh store. -/
def stScenario : WorkflowState :=
  applySeq initialState [(ts1, frameTriage), (ts2, frameDoctor)]

/-- A frame carrying only completed_steps. -/
def frameCompletedOnly : RawFrame :=
  .envelope (some "progress_update") { completed_steps := some ["triage"] }

/-- A frame carrying only current_step doctor_matching. -/
def frameDoctorOnly : RawFrame :=
  .envelope (some "progress_update") { current_step := some "doctor_matching" }

/-- An alternative history reaching the same current_step and
completed_steps as the spec scenario. -/
def stAlt : WorkflowState :=
  applySeq initialState [(ts1, frameCompletedOnly), (ts2, frameDoctorOnly)]

/-- A store whose current agent is CaseTriageAgent. -/
def stWithAgent : WorkflowState :=
  { initialState with current_agent := some "CaseTriageAgent" }

/-- An activity fragment naming an agent and an action. -/
def fragSearch : ActivityFragment :=
  ⟨some "DoctorMatchingAgent", some "Searching doctors", none, none⟩

/-- A patch carrying an agent_activity but no current_agent. -/
def ddActivityOnly : Data := { agent_activity := some fragSearch }

/-- A patch whose message already carries a payload timestamp. -/
def ddMsgTs : Data :=
  { message := some ⟨some "Case classified as CRITICAL", none, some "09:59:59"⟩ }

/-- A patch whose current_agent key is present but holds the empty
string, which JavaScript treats as falsy. -/
def ddEmptyAgent : Data := { current_agent := some "" }

/-- A patch carrying only a current_agent. -/
def ddCA : Data := { current_agent := some "CaseTriageAgent" }

end JarvisMD

namespace JarvisMD

/-! Helper lemmas characterising each field of the progress_update
handler, shared by the claim theorems. -/

/-- The steps field of the progress_update result: untouched unless the
patch carries a truthy current_step, in which case the previous steps
are mapped through the incremental update. -/
theorem steps_handleProgressUpdate (now : Timestamp) (prev : WorkflowState) (dd : Data) :
    (handleProgressUpdate now prev dd).workflow_steps =
      if truthyS dd.current_step then
        prev.workflow_steps.map
          (updateStep (dd.current_step.getD "") prev.completed_steps)
      else prev.workflow_steps := by
  unfold handleProgressUpdate
  cases h : dd.message <;> by_cases h2 : activityTriggered dd <;>
    by_cases h3 : truthyS dd.current_step <;> simp [h, h2, h3, mergeTop]

/-- The messages field of the progress_update result. -/
theorem messages_handleProgressUpdate (now : Timestamp) (prev : WorkflowState) (dd : Data) :
    (handleProgressUpdate now prev dd).messages =
      prev.messages ++
        (match dd.message with
          | some m => [{ m with timestamp := some now.display }]
          | none => []) := by
  unfold handleProgressUpdate
  cases h : dd.message <;> by_cases h2 : activityTriggered dd <;>
    by_cases h3 : truthyS dd.current_step <;> simp [h, h2, h3, mergeTop]

/-- The activity-log field of the progress_update result. -/
theorem activities_handleProgressUpdate (now : Timestamp) (prev : WorkflowState) (dd : Data) :
    (handleProgressUpdate now prev dd).agent_activities =
      prev.agent_activities ++
        (if activityTriggered dd then [mkActivity now dd] else []) := by
  unfold handleProgressUpdate
  cases h : dd.message <;> by_cases h2 : activityTriggered dd <;>
    by_cases h3 : truthyS dd.current_step <;> simp [h, h2, h3, mergeTop]

/-- The current_agent field of the progress_update result: the activity
branch overwrites it with the raw patch field, otherwise the shallow
merge applies. -/
theorem current_agent_handleProgressUpdate (now : Timestamp) (prev : WorkflowState) (dd : Data) :
    (handleProgressUpdate now prev dd).current_agent =
      if activityTriggered dd then dd.current_agent
      else
        match dd.current_agent with
        | some v => some v
        | none => prev.current_agent := by
  unfold handleProgressUpdate
  cases h : dd.message <;> by_cases h2 : activityTriggered dd <;>
    by_cases h3 : truthyS dd.current_step <;> simp [h, h2, h3, mergeTop]

/-- The five plain top-level run fields of the progress_update result
coincide with the shallow merge of the patch. -/
theorem top_fields_handleProgressUpdate (now : Timestamp) (prev : WorkflowState) (dd : Data) :
    (handleProgressUpdate now prev dd).status = (mergeTop prev dd).status ∧
    (handleProgressUpdate now prev dd).current_step = (mergeTop prev dd).current_step ∧
    (handleProgressUpdate now prev dd).completed_steps = (mergeTop prev dd).completed_steps ∧
    (handleProgressUpdate now prev dd).progress_percentage
      = (mergeTop prev dd).progress_percentage ∧
    (handleProgressUpdate now prev dd).final_result = (mergeTop prev dd).final_result := by
  unfold handleProgressUpdate
  cases h : dd.message <;> by_cases h2 : activityTriggered dd <;>
    by_cases h3 : truthyS dd.current_step <;> simp [h, h2, h3]

/-- Per-frame form of the message log evolution. -/
theorem messages_onmessage (now : Timestamp) (st : WorkflowState) (raw : RawFrame) :
    (onmessage now st raw).1.messages = st.messages ++ (messageOf (now, raw)).toList := by
  cases raw with
  | malformed => simp [onmessage, messageOf]
  | envelope ty dd =>
      by_cases h : ty = some "progress_update"
      · cases hm : dd.message <;>
          simp [onmessage, messageOf, h, hm, messages_handleProgressUpdate]
      · by_cases h2 : ty = some "session_update" <;>
          simp [onmessage, messageOf, h, h2, mergeTop]

/-- Per-frame form of the activity log evolution. -/
theorem activities_onmessage (now : Timestamp) (st : WorkflowState) (raw : RawFrame) :
    (onmessage now st raw).1.agent_activities =
      st.agent_activities ++ (activityOf (now, raw)).toList := by
  cases raw with
  | malformed => simp [onmessage, activityOf]
  | envelope ty dd =>
      by_cases h : ty = some "progress_update"
      · by_cases h2 : activityTriggered dd <;>
          simp [onmessage, activityOf, h, h2, activities_handleProgressUpdate]
      · by_cases h2 : ty = some "session_update" <;>
          simp [onmessage, activityOf, h, h2, mergeTop]

/-- The activity log over a whole frame sequence is the prior log plus
one record per qualifying frame, in arrival order. -/
theorem activities_applySeq (frames : List (Timestamp × RawFrame)) (st : WorkflowState) :
    (applySeq st frames).agent_activities =
      st.agent_activities ++ frames.filterMap activityOf := by
  induction frames generalizing st with
  | nil => simp [applySeq]
  | cons p rest ih =>
      have hstep : applySeq st (p :: rest) = applySeq (onmessage p.1 st p.2).1 rest := rfl
      rw [hstep, ih, activities_onmessage]
      cases h : activityOf (p.1, p.2) <;> simp [List.filterMap_cons, h]

/-- Length of a filterMap equals the count of inputs it keeps. -/
theorem length_filterMap_eq_countP {α β : Type} (f : α → Option β) (l : List α) :
    (l.filterMap f).length = l.countP (fun a => (f a).isSome) := by
  induction l with
  | nil => rfl
  | cons a t ih =>
      cases h : f a <;> simp [List.filterMap_cons, h, List.countP_cons, ih]

/-! The claim theorems. -/

/-- Claim C1, counterexample: after the spec scenario's two frames the
merged state does have current_step doctor_matching and completed_steps
containing triage, yet the triage step's stored status is running, not
completed — the step update keeps the prior status of a step that is
neither current nor in the PREVIOUS state's completed_steps. -/
theorem C1_counterexample :
    stScenario.current_step = some "doctor_matching" ∧
    stScenario.completed_steps = ["triage"] ∧
    (stScenario.workflow_steps.filter (fun s => s.id == "triage")).map Step.status
      = ["running"] ∧
    ("running" : String) ≠ "completed" := by
  refine ⟨by decide, by decide, by decide, by decide⟩

/-- Claim C1, amended: when a progress_update frame carries a truthy
current_step, the step equal to it is set running, any other step
contained in the PRIOR state's completed_steps is set completed, and
every remaining step keeps its prior status (it is not reset to
pending); a frame without current_step leaves the steps untouched.  In
the spec scenario, triage therefore ends running (not completed),
doctor_matching running, the other four steps pending. -/
theorem C1_step_update_incremental (now : Timestamp) (prev : WorkflowState)
    (dd : Data) (i : Nat) :
    ((handleProgressUpdate now prev dd).workflow_steps[i]? =
      if truthyS dd.current_step then
        (prev.workflow_steps[i]?).map
          (fun step =>
            if step.id = dd.current_step.getD "" then { step with status := "running" }
            else if prev.completed_steps.contains step.id then
              { step with status := "completed" }
            else step)
      else prev.workflow_steps[i]?) ∧
    stScenario.workflow_steps.map Step.status =
      ["running", "running", "pending", "pending", "pending", "pending"] := by
  refine ⟨?_, by decide⟩
  rw [steps_handleProgressUpdate]
  by_cases h : truthyS dd.current_step
  · rw [if_pos h, if_pos h, List.getElem?_map]
    rfl
  · rw [if_neg h, if_neg h]

/-- Claim C2, counterexample: with the stored current agent set, a
progress_update frame carrying an agent_activity but no current_agent
does not leave current_agent unchanged — the activity branch assigns
the raw (absent) patch field, clearing it. -/
theorem C2_counterexample :
    ddActivityOnly.current_agent = none ∧
    ddActivityOnly.agent_activity.isSome = true ∧
    stWithAgent.current_agent = some "CaseTriageAgent" ∧
    (onmessage ts1 stWithAgent
      (.envelope (some "progress_update") ddActivityOnly)).1.current_agent = none := by
  refine ⟨by decide, by decide, by decide, by decide⟩

/-- Claim C2, amended: for both frame types every top-level run field
absent from the patch keeps its prior value, with one exception —
whenever a progress_update frame triggers the activity branch (truthy
current_agent or an agent_activity present), the stored current_agent
is overwritten by the frame's raw current_agent field, so an
agent_activity-only frame clears it. -/
theorem C2_absent_fields_retained (now : Timestamp) (prev : WorkflowState) (dd : Data) :
    (dd.status = none →
      (onmessage now prev (.envelope (some "progress_update") dd)).1.status = prev.status) ∧
    (dd.current_step = none →
      (onmessage now prev (.envelope (some "progress_update") dd)).1.current_step
        = prev.current_step) ∧
    (dd.completed_steps = none →
      (onmessage now prev (.envelope (some "progress_update") dd)).1.completed_steps
        = prev.completed_steps) ∧
    (dd.progress_percentage = none →
      (onmessage now prev (.envelope (some "progress_update") dd)).1.progress_percentage
        = prev.progress_percentage) ∧
    (dd.final_result = none →
      (onmessage now prev (.envelope (some "progress_update") dd)).1.final_result
        = prev.final_result) ∧
    (dd.status = none →
      (onmessage now prev (.envelope (some "session_update") dd)).1.status = prev.status) ∧
    (dd.current_agent = none →
      (onmessage now prev (.envelope (some "session_update") dd)).1.current_agent
        = prev.current_agent) ∧
    (¬ activityTriggered dd → dd.current_agent = none →
      (onmessage now prev (.envelope (some "progress_update") dd)).1.current_agent
        = prev.current_agent) ∧
    (activityTriggered dd →
      (onmessage now prev (.envelope (some "progress_update") dd)).1.current_agent
        = dd.current_agent) := by
  have hp : (onmessage now prev (.envelope (some "progress_update") dd)).1
      = handleProgressUpdate now prev dd := by simp [onmessage]
  have hs : (onmessage now prev (.envelope (some "session_update") dd)).1
      = mergeTop prev dd := by simp [onmessage]
  have htop := top_fields_handleProgressUpdate now prev dd
  refine ⟨?_, ?_, ?_, ?_, ?_, ?_, ?_, ?_, ?_⟩
  · intro h
    rw [hp, htop.1]
    simp [mergeTop, h]
  · intro h
    rw [hp, htop.2.1]
    simp [mergeTop, h]
  · intro h
    rw [hp, htop.2.2.1]
    simp [mergeTop, h]
  · intro h
    rw [hp, htop.2.2.2.1]
    simp [mergeTop, h]
  · intro h
    rw [hp, htop.2.2.2.2]
    simp [mergeTop, h]
  · intro h
    rw [hs]
    simp [mergeTop, h]
  · intro h
    rw [hs]
    simp [mergeTop, h]
  · intro h h2
    rw [hp, current_agent_handleProgressUpdate]
    simp [h, h2]
  · intro h
    rw [hp, current_agent_handleProgressUpdate]
    simp [h]

/-- Claim C2, witness at a concrete input. -/
theorem C2_witness :
    (onmessage ts1 initialState (.envelope (some "progress_update") {})).1.status
      = initialState.status :=
  (C2_absent_fields_retained ts1 initialState {}).1 rfl

/-- Claim C3, counterexample: a message whose payload already carries a
timestamp does not keep it — the stored copy's timestamp is the local
receive time. -/
theorem C3_counterexample :
    ddMsgTs.message.map Message.timestamp = some (some "09:59:59") ∧
    ((onmessage ts1 initialState (.envelope (some "progress_update") ddMsgTs)).1.messages.map
        Message.timestamp) = [some "10:00:01"] ∧
    (some "10:00:01" : Option String) ≠ some "09:59:59" := by
  refine ⟨by decide, by decide, by decide⟩

/-- Claim C3, amended: a progress_update frame carrying a message
appends exactly that message at the end of the log (append order equals
arrival order), with its timestamp ALWAYS replaced by the locally
stamped receive time, even when the payload already carried one; a
frame without a message appends nothing. -/
theorem C3_message_append (now : Timestamp) (prev : WorkflowState) (dd : Data)
    (m : Message) :
    (dd.message = some m →
      (handleProgressUpdate now prev dd).messages =
        prev.messages ++ [{ m with timestamp := some now.display }]) ∧
    (dd.message = none →
      (handleProgressUpdate now prev dd).messages = prev.messages) := by
  constructor <;> intro h <;> simp [messages_handleProgressUpdate, h]

/-- Claim C3, witness at a concrete input. -/
theorem C3_witness :
    (handleProgressUpdate ts1 initialState ddMsgTs).messages =
      initialState.messages ++
        [⟨some "Case classified as CRITICAL", none, some "10:00:01"⟩] :=
  (C3_message_append ts1 initialState ddMsgTs
    ⟨some "Case classified as CRITICAL", none, some "09:59:59"⟩).1 rfl

/-- Claim C4, counterexample: a progress_update frame whose patch
contains the current_agent key holding the empty string (falsy in
JavaScript) appends no activity record, although the claim requires one
record per frame containing current_agent. -/
theorem C4_counterexample :
    ddEmptyAgent.current_agent.isSome = true ∧
    initialState.agent_activities.length = 0 ∧
    (onmessage ts1 initialState
      (.envelope (some "progress_update") ddEmptyAgent)).1.agent_activities.length = 0 := by
  refine ⟨by decide, by decide, by decide⟩

/-- Claim C4, amended: over any frame sequence the activity log gains
exactly one record per progress_update frame whose patch carries a
truthy (non-empty) current_agent or an agent_activity, in arrival
order; each record's agent prefers the frame's current_agent falling
back to the fragment's agent, its action prefers the fragment's action
falling back to the message content falling back to the
Processing... placeholder, and its status defaults to running when the
fragment carries none. -/
theorem C4_activity_log (st : WorkflowState) (frames : List (Timestamp × RawFrame))
    (now : Timestamp) (dd : Data) :
    ((applySeq st frames).agent_activities =
      st.agent_activities ++ frames.filterMap activityOf) ∧
    ((applySeq st frames).agent_activities.length =
      st.agent_activities.length + frames.countP (fun p => (activityOf p).isSome)) ∧
    (truthyS dd.current_agent → (mkActivity now dd).agent = dd.current_agent) ∧
    (¬ truthyS dd.current_agent →
      (mkActivity now dd).agent = dd.agent_activity.bind ActivityFragment.agent) ∧
    (truthyS (dd.agent_activity.bind ActivityFragment.action) →
      (mkActivity now dd).action
        = (dd.agent_activity.bind ActivityFragment.action).getD "") ∧
    (¬ truthyS (dd.agent_activity.bind ActivityFragment.action) →
      truthyS (dd.message.bind Message.content) →
      (mkActivity now dd).action = (dd.message.bind Message.content).getD "") ∧
    (¬ truthyS (dd.agent_activity.bind ActivityFragment.action) →
      ¬ truthyS (dd.message.bind Message.content) →
      (mkActivity now dd).action = "Processing...") ∧
    (dd.agent_activity.bind ActivityFragment.status = none →
      (mkActivity now dd).status = "running") := by
  refine ⟨activities_applySeq frames st, ?_, ?_, ?_, ?_, ?_, ?_, ?_⟩
  · rw [activities_applySeq frames st]
    simp [length_filterMap_eq_countP]
  · intro h
    simp [mkActivity, jsOr, h]
  · intro h
    simp [mkActivity, jsOr, h]
  · intro h
    simp [mkActivity, jsOrD, h]
  · intro h h2
    simp [mkActivity, jsOrD, h, h2]
  · intro h h2
    simp [mkActivity, jsOrD, h, h2]
  · intro h
    simp [mkActivity, jsOrD, h, truthyS]

/-- Claim C4, witness at a concrete input. -/
theorem C4_witness :
    (mkActivity ts1 ddCA).agent = some "CaseTriageAgent" :=
  (C4_activity_log initialState [] ts1 ddCA).2.2.1 (by decide)

/-- Claim C5, counterexample: two reachable store states that agree on
current_step and completed_steps but whose derived step statuses differ
(triage running in one, completed in the other) — the statuses are
stored and updated incrementally, so they are not a function of the
pair alone. -/
theorem C5_counterexample :
    stScenario.current_step = stAlt.current_step ∧
    stScenario.completed_steps = stAlt.completed_steps ∧
    (stScenario.workflow_steps.filter (fun s => s.id == "triage")).map Step.status
      = ["running"] ∧
    (stAlt.workflow_steps.filter (fun s => s.id == "triage")).map Step.status
      = ["completed"] ∧
    stScenario.workflow_steps ≠ stAlt.workflow_steps := by
  refine ⟨by decide, by decide, by decide, by decide, by decide⟩

/-- Claim C5, amended: the per-frame step update is deterministic given
the stored step list and the stored completed_steps — two states that
agree on those produce identical step lists under the same frame; but
agreement on current_step and completed_steps alone does not determine
the statuses, because they are stored state, not a derived function. -/
theorem C5_step_update_deterministic (now : Timestamp) (s1 s2 : WorkflowState)
    (dd : Data) (hsteps : s1.workflow_steps = s2.workflow_steps)
    (hdone : s1.completed_steps = s2.completed_steps) :
    (handleProgressUpdate now s1 dd).workflow_steps =
      (handleProgressUpdate now s2 dd).workflow_steps := by
  rw [steps_handleProgressUpdate, steps_handleProgressUpdate, hsteps, hdone]

/-- Claim C5, witness at concrete distinct states. -/
theorem C5_witness :
    (handleProgressUpdate ts1 initialState { current_step := some "triage" }).workflow_steps
      = (handleProgressUpdate ts1 { initialState with status := "running" }
          { current_step := some "triage" }).workflow_steps :=
  C5_step_update_deterministic ts1 initialState
    { initialState with status := "running" } { current_step := some "triage" } rfl rfl

/-- Claim C6, counterexample: a parsed envelope that lacks the type key
is dropped with no state change, but NO diagnostic is logged (the
console.error sits only in the JSON.parse catch), contradicting the
claim that a missing-type payload is dropped AND logged. -/
theorem C6_counterexample :
    (onmessage ts1 initialState (.envelope none { status := some "running" })).1
      = initialState ∧
    (onmessage ts1 initialState (.envelope none { status := some "running" })).2
      = false := by
  refine ⟨by decide, by decide⟩

/-- Claim C6, amended: an envelope whose type is neither
progress_update nor session_update — including one with no type key at
all — is ignored with no state change and no diagnostic; only an
unparseable payload is dropped with a diagnostic logged, and neither
case crashes the store (the handler is total); if the connection errors
before any frame arrives the run state keeps its idle default and the
connectivity reason is the non-empty Connection failed. -/
theorem C6_frame_tolerance (now : Timestamp) (st : WorkflowState) (ty : Option String)
    (dd : Data) (c : ConnState) :
    (ty ≠ some "progress_update" → ty ≠ some "session_update" →
      onmessage now st (.envelope ty dd) = (st, false)) ∧
    (onmessage now st .malformed = (st, true)) ∧
    ((onerror c).isConnected = false) ∧
    ((onerror c).connectionError = some "Connection failed") ∧
    (("Connection failed" : String) ≠ "") ∧
    (initialState.status = "idle") ∧
    (applySeq initialState [] = initialState) := by
  refine ⟨?_, rfl, rfl, rfl, by decide, rfl, rfl⟩
  intro h1 h2
  simp [onmessage, h1, h2]

/-- Claim C6, witness at a concrete input. -/
theorem C6_witness :
    onmessage ts1 initialState (.envelope (some "unknown_kind") {}) = (initialState, false) :=
  (C6_frame_tolerance ts1 initialState (some "unknown_kind") {} connInitial).1
    (by decide) (by decide)

/-- Claim C7, counterexample: after a successful open (which clears the
error reason) a plain close by either side leaves the manager
disconnected but with NO connectivity reason — the onclose handler only
flips the connected flag, contradicting the claim that a reason is
surfaced on every close. -/
theorem C7_counterexample :
    (onclose (onopen (openConn (some "run-1") true connInitial))).isConnected = false ∧
    (onclose (onopen (openConn (some "run-1") true connInitial))).connectionError
      = none := by
  refine ⟨by decide, by decide⟩

/-- Claim C7, amended: open is a no-op when the run id is absent or
empty or the view is not visible; every successful open sends exactly
one get_status frame; a transport error transitions to disconnected
and surfaces the reason Connection failed; a close by either side
transitions to disconnected but surfaces NO reason (the prior reason is
kept unchanged); and neither close nor error sends any frame or opens a
new socket — there is no auto-reconnect. -/
theorem C7_connection_lifecycle (sid : Option String) (vis : Bool) (c : ConnState) :
    (truthyS sid = false → openConn sid vis c = c) ∧
    (vis = false → openConn sid vis c = c) ∧
    ((onopen c).sent = c.sent ++ ["get_status"]) ∧
    ((onopen c).isConnected = true) ∧
    ((onerror c).isConnected = false) ∧
    ((onerror c).connectionError = some "Connection failed") ∧
    ((onclose c).isConnected = false) ∧
    ((onclose c).connectionError = c.connectionError) ∧
    ((onclose c).sent = c.sent) ∧
    ((onclose c).wsExists = c.wsExists) ∧
    ((onerror c).sent = c.sent) ∧
    ((onerror c).wsExists = c.wsExists) := by
  refine ⟨?_, ?_, rfl, rfl, rfl, rfl, rfl, rfl, rfl, rfl, rfl, rfl⟩
  · intro h
    simp [openConn, h]
  · intro h
    simp [openConn, h]

/-- Claim C7, witness at a concrete input. -/
theorem C7_witness :
    openConn none true connInitial = connInitial :=
  (C7_connection_lifecycle none true connInitial).1 (by decide)

/-- Claim C8: both logs are append-only — for every frame applied in
any state the prior contents are an unchanged front segment of the new
contents, at most one entry is appended to each log per frame, and
applying the same qualifying frame twice appends two equal entries (no
deduplication). -/
theorem C8_append_only (now : Timestamp) (st : WorkflowState) (raw : RawFrame)
    (dd : Data) (m : Message) :
    ((onmessage now st raw).1.messages = st.messages ++ (messageOf (now, raw)).toList) ∧
    ((onmessage now st raw).1.agent_activities
      = st.agent_activities ++ (activityOf (now, raw)).toList) ∧
    ((messageOf (now, raw)).toList.length ≤ 1) ∧
    ((activityOf (now, raw)).toList.length ≤ 1) ∧
    (dd.message = some m →
      (handleProgressUpdate now (handleProgressUpdate now st dd) dd).messages =
        st.messages ++ [{ m with timestamp := some now.display },
          { m with timestamp := some now.display }]) ∧
    (activityTriggered dd →
      (handleProgressUpdate now (handleProgressUpdate now st dd) dd).agent_activities =
        st.agent_activities ++ [mkActivity now dd, mkActivity now dd]) := by
  refine ⟨messages_onmessage now st raw, activities_onmessage now st raw, ?_, ?_, ?_, ?_⟩
  · cases h : messageOf (now, raw) <;> simp [h]
  · cases h : activityOf (now, raw) <;> simp [h]
  · intro h
    rw [messages_handleProgressUpdate, messages_handleProgressUpdate]
    simp [h]
  · intro h
    rw [activities_handleProgressUpdate, activities_handleProgressUpdate]
    simp [h]

/-- Claim C8, witness at a concrete input. -/
theorem C8_witness :
    (handleProgressUpdate ts1 (handleProgressUpdate ts1 initialState ddMsgTs) ddMsgTs).messages
      = initialState.messages ++
          [⟨some "Case classified as CRITICAL", none, some "10:00:01"⟩,
           ⟨some "Case classified as CRITICAL", none, some "10:00:01"⟩] :=
  (C8_append_only ts1 initialState .malformed ddMsgTs
    ⟨some "Case classified as CRITICAL", none, some "09:59:59"⟩).2.2.2.2.1 rfl

/-- Claim C9: the view-teardown cleanup always closes the held
WebSocket, and the store a remount (reset) observes is back at fresh-run
defaults — status idle, no current step, nothing completed, progress 0,
both logs empty, and the six-step catalog entirely pending. -/
theorem C9_teardown_and_reset (c : ConnState) :
    ((cleanupConn c).wsExists = false) ∧
    (initialState.status = "idle") ∧
    (initialState.current_step = none) ∧
    (initialState.completed_steps = []) ∧
    (initialState.progress_percentage = 0) ∧
    (initialState.messages = []) ∧
    (initialState.agent_activities = []) ∧
    (initialState.workflow_steps.length = 6) ∧
    (initialState.workflow_steps.all (fun s => s.status == "pending") = true) := by
  refine ⟨?_, rfl, rfl, rfl, rfl, rfl, rfl, rfl, by decide⟩
  by_cases h : c.wsExists <;> simp [cleanupConn, h]

/-- Claim C10: a session_update frame is a pure shallow overwrite of
the top-level run fields — it appends nothing to either log, leaves
every step's stored status untouched, logs no diagnostic, and each
recognized field present in the patch overwrites while each absent
field is retained. -/
theorem C10_session_update_pure_merge (now : Timestamp) (st : WorkflowState) (dd : Data)
    (v : String) (l : List String) (n : Nat) :
    ((applySession now st dd).messages = st.messages) ∧
    ((applySession now st dd).agent_activities = st.agent_activities) ∧
    ((applySession now st dd).workflow_steps = st.workflow_steps) ∧
    ((onmessage now st (.envelope (some "session_update") dd)).2 = false) ∧
    (dd.status = none → (applySession now st dd).status = st.status) ∧
    (dd.status = some v → (applySession now st dd).status = v) ∧
    (dd.current_step = none → (applySession now st dd).current_step = st.current_step) ∧
    (dd.current_step = some v → (applySession now st dd).current_step = some v) ∧
    (dd.completed_steps = none →
      (applySession now st dd).completed_steps = st.completed_steps) ∧
    (dd.completed_steps = some l → (applySession now st dd).completed_steps = l) ∧
    (dd.progress_percentage = none →
      (applySession now st dd).progress_percentage = st.progress_percentage) ∧
    (dd.progress_percentage = some n → (applySession now st dd).progress_percentage = n) ∧
    (dd.current_agent = none → (applySession now st dd).current_agent = st.current_agent) ∧
    (dd.current_agent = some v → (applySession now st dd).current_agent = some v) ∧
    (dd.final_result = none → (applySession now st dd).final_result = st.final_result) ∧
    (dd.final_result = some v → (applySession now st dd).final_result = some v) := by
  have hs : applySession now st dd = mergeTop st dd := by
    simp [applySession, onmessage]
  rw [hs]
  refine ⟨rfl, rfl, rfl, by simp [onmessage], ?_, ?_, ?_, ?_, ?_, ?_, ?_, ?_, ?_, ?_, ?_, ?_⟩
    <;> intro h <;> simp [mergeTop, h]

/-- Claim C10, witness at a concrete input. -/
theorem C10_witness :
    (applySession ts1 initialState { status := some "running" }).status = "running" :=
  (C10_session_update_pure_merge ts1 initialState { status := some "running" }
    "running" [] 0).2.2.2.2.2.1 rfl

end JarvisMD
